import Mathlib

/-!
# Verification of the FoundryVTT ArUco token tracker core

Shallow embedding of the Surface Calibration + Token Lifecycle + Sync
Protocol subsystem of `aruco_tracker.py`, together with the mock remote
server of `test_server/mock_foundry_server.py`.  Timestamps, coordinates
and confidences are modelled as rationals (the Python floats), marker IDs
as naturals, and the Python dictionaries as association lists or as
functions into `Option`.
-/

namespace ArucoTracker

/-- A 2D point with rational coordinates (a Python float pair). -/
abbrev Pt := ℚ × ℚ

/-- Python `int(q)` on a float value: truncation toward zero. -/
def pyInt (q : ℚ) : ℤ := q.num.tdiv q.den

/-! ## Tracked tokens and the token ledger

`ArucoToken` embeds the `@dataclass ArucoToken` of `aruco_tracker.py`.
The ledger `FoundryArucoTracker.tracked_tokens : Dict[int, ArucoToken]`
is modelled as a function from marker IDs to `Option ArucoToken`. -/

/-- The `ArucoToken` dataclass: one detected ArUco marker token. -/
structure ArucoToken where
  id : ℕ
  x : ℚ
  y : ℚ
  confidence : ℚ
  last_seen : ℚ
  corners : List (ℤ × ℤ)
  marker_type : String
  foundry_token_id : Option String := none
  deriving Repr, DecidableEq

/-- The token ledger `self.tracked_tokens`, keyed by marker ID. -/
abbrev TokenMap := ℕ → Option ArucoToken

/-- The empty ledger (fresh `FoundryArucoTracker`). -/
def emptyTokenMap : TokenMap := fun _ => none

/-- The merge loop of `update_tracked_tokens`:
`for token in detected_tokens: self.tracked_tokens[token.id] = token`.
Later list entries overwrite earlier ones with the same ID. -/
def mergeDetections : List ArucoToken → TokenMap → TokenMap
  | [], m => m
  | t :: ts, m => mergeDetections ts (fun i => if i = t.id then some t else m i)

/-- The last token of a batch carrying a given ID, if any: the write that
survives the merge loop for that key. -/
def lastWrite : List ArucoToken → ℕ → Option ArucoToken
  | [], _ => none
  | t :: ts, i =>
      match lastWrite ts i with
      | some u => some u
      | none => if i = t.id then some t else none

/-- The eviction sweep of `update_tracked_tokens`: every entry with
`current_time - token.last_seen > self.token_timeout` is deleted. -/
def evictStale (m : TokenMap) (now timeout : ℚ) : TokenMap :=
  fun i =>
    match m i with
    | none => none
    | some t => if now - t.last_seen > timeout then none else some t

/-- `FoundryArucoTracker.update_tracked_tokens`: merge the detection batch
into the ledger, then evict entries unseen for longer than the timeout. -/
def update_tracked_tokens (detected : List ArucoToken) (now timeout : ℚ)
    (m : TokenMap) : TokenMap :=
  evictStale (mergeDetections detected m) now timeout

/-! ## Mock Foundry server (`test_server/mock_foundry_server.py`)

Python dictionaries become association lists (`assocSet` reproduces the
dictionary write: replace the first entry with the key, or append), JSON
flag values become the `FlagVal` sum, and the `uuid4` token identifiers
of `handle_create_token` are modelled by a fresh-id counter. -/

/-- A JSON value stored in a token `flags` dictionary. -/
inductive FlagVal where
  | i (n : ℤ)
  | b (v : Bool)
  | s (v : String)
  deriving Repr, DecidableEq

/-- A `flags` dictionary. -/
abbrev Flags := List (String × FlagVal)

/-- Dictionary write `d[k] = v`: replace the first entry keyed `k`,
or append a new entry. -/
def assocSet {α : Type} (k : String) (v : α) :
    List (String × α) → List (String × α)
  | [] => [(k, v)]
  | (k', v') :: rest =>
      if k' = k then (k, v) :: rest else (k', v') :: assocSet k v rest

/-- `dict.update(other)`: write every entry of `other` in order. -/
def dictUpdate {α : Type} (d other : List (String × α)) : List (String × α) :=
  other.foldl (fun acc kv => assocSet kv.1 kv.2 acc) d

/-- The `MockToken` class of the mock server. -/
structure MockToken where
  id : String
  name : String
  x : ℤ
  y : ℤ
  img : String := "icons/svg/mystery-man.svg"
  width : ℤ := 1
  height : ℤ := 1
  flags : Flags := []
  created_at : ℚ
  updated_at : ℚ
  deriving Repr, DecidableEq

/-- A parsed PATCH body for `MockToken.update`: each key the method reads
is either present or absent. -/
structure UpdateData where
  x : Option ℤ := none
  y : Option ℤ := none
  name : Option String := none
  img : Option String := none
  flags : Option Flags := none
  deriving Repr, DecidableEq

/-- `MockToken.update`: overwrite each field whose key is present in the
body, merge `flags`, and stamp `updated_at` with the current time. -/
def MockToken.update (t : MockToken) (data : UpdateData) (now : ℚ) :
    MockToken :=
  { t with
    x := data.x.getD t.x
    y := data.y.getD t.y
    name := data.name.getD t.name
    img := data.img.getD t.img
    flags := match data.flags with
      | some f => dictUpdate t.flags f
      | none => t.flags
    updated_at := now }

/-- The `MockScene` class: scene metadata plus its token dictionary. -/
structure MockScene where
  id : String
  name : String := "Test Scene"
  width : ℤ := 4000
  height : ℤ := 3000
  tokens : List (String × MockToken) := []
  created_at : ℚ := 0
  deriving Repr, DecidableEq

/-- One entry of the server `token_history` list. -/
inductive HistData where
  | created (t : MockToken)
  | updated (d : UpdateData)
  deriving Repr, DecidableEq

/-- A `token_history` record written by `add_to_history`. -/
structure HistEntry where
  timestamp : ℚ
  action : String
  token_id : String
  data : HistData
  deriving Repr, DecidableEq

/-- The mutable state of `MockFoundryServer`: scenes, the fresh-id
counter standing in for `uuid4`, the statistics counters the handlers
touch, and the token update history. -/
structure ServerState where
  scenes : List (String × MockScene)
  next_token_id : ℕ := 0
  api_requests : ℕ := 0
  tokens_created : ℕ := 0
  tokens_updated : ℕ := 0
  token_history : List HistEntry := []
  deriving Repr, DecidableEq

/-- `MockFoundryServer.add_to_history`: append, keeping the last 1000. -/
def add_to_history (st : ServerState) (e : HistEntry) : ServerState :=
  let h := st.token_history ++ [e]
  { st with token_history := if h.length > 1000 then h.drop (h.length - 1000) else h }

/-- `handle_get_scene_tokens` (GET `/api/scenes/{scene_id}/tokens`):
`none` models the 404 response for an unknown scene, `some` the 200
response carrying the scene token list in insertion order. -/
def handle_get_scene_tokens (st : ServerState) (sceneId : String) :
    Option (List MockToken) × ServerState :=
  let st' := { st with api_requests := st.api_requests + 1 }
  match List.lookup sceneId st.scenes with
  | none => (none, st')
  | some sc => (some (sc.tokens.map Prod.snd), st')

/-- A parsed POST body for `handle_create_token`. -/
structure CreatePayload where
  name : Option String := none
  x : Option ℤ := none
  y : Option ℤ := none
  img : Option String := none
  width : Option ℤ := none
  height : Option ℤ := none
  flags : Option Flags := none
  deriving Repr, DecidableEq

/-- `handle_create_token` (POST `/api/scenes/{scene_id}/tokens`):
`none` models the 404 response for an unknown scene, `some` the 201
response carrying the created token.  The `uuid4` identifier is
modelled by the `next_token_id` counter. -/
def handle_create_token (st : ServerState) (sceneId : String)
    (data : CreatePayload) (now : ℚ) : Option MockToken × ServerState :=
  let st' := { st with api_requests := st.api_requests + 1 }
  match List.lookup sceneId st.scenes with
  | none => (none, st')
  | some sc =>
      let tid := "tok_" ++ toString st.next_token_id
      let token : MockToken :=
        { id := tid
          name := data.name.getD ("Token_" ++ tid.take 8)
          x := data.x.getD 100
          y := data.y.getD 100
          img := data.img.getD "icons/svg/mystery-man.svg"
          width := data.width.getD 1
          height := data.height.getD 1
          flags := data.flags.getD []
          created_at := now
          updated_at := now }
      let sc' := { sc with tokens := assocSet tid token sc.tokens }
      let st'' := add_to_history
        { st' with
          scenes := assocSet sceneId sc' st.scenes
          next_token_id := st.next_token_id + 1
          tokens_created := st.tokens_created + 1 }
        { timestamp := now, action := "created", token_id := tid,
          data := .created token }
      (some token, st'')

/-- The search loop of `handle_update_token`: the first scene (in
iteration order) whose token dictionary contains the given ID. -/
def findTokenScene (tid : String) :
    List (String × MockScene) → Option (String × MockScene)
  | [] => none
  | (sid, sc) :: rest =>
      if (List.lookup tid sc.tokens).isSome then some (sid, sc)
      else findTokenScene tid rest

/-- In-place mutation of the found token: rewrite the first scene
containing `tid`, replacing that token entry by `t'`. -/
def updateScenes (tid : String) (t' : MockToken) :
    List (String × MockScene) → List (String × MockScene)
  | [] => []
  | (sid, sc) :: rest =>
      if (List.lookup tid sc.tokens).isSome then
        (sid, { sc with tokens := assocSet tid t' sc.tokens }) :: rest
      else (sid, sc) :: updateScenes tid t' rest

/-- `handle_update_token` (PATCH `/api/tokens/{token_id}`): find the
token in any scene, apply `MockToken.update` with the body, bump the
statistics and history, and answer with the updated representation;
`none` models the 404 response when no scene holds the token. -/
def handle_update_token (st : ServerState) (tokenId : String)
    (data : UpdateData) (now : ℚ) : Option MockToken × ServerState :=
  let st' := { st with api_requests := st.api_requests + 1 }
  match findTokenScene tokenId st.scenes with
  | none => (none, st')
  | some (_, sc) =>
      match List.lookup tokenId sc.tokens with
      | none => (none, st')
      | some t =>
          let t' := t.update data now
          let st'' := add_to_history
            { st' with
              scenes := updateScenes tokenId t' st.scenes
              tokens_updated := st.tokens_updated + 1 }
            { timestamp := now, action := "updated", token_id := tokenId,
              data := .updated data }
          (some t', st'')

/-- Scene lookup by ID (`self.scenes[scene_id]`). -/
def sceneOf (st : ServerState) (sid : String) : Option MockScene :=
  List.lookup sid st.scenes

/-- Token lookup through a scene (`scene.tokens[token_id]`). -/
def tokenAt (st : ServerState) (sid tid : String) : Option MockToken :=
  (sceneOf st sid).bind fun sc => List.lookup tid sc.tokens

/-- The scene fields other than the token dictionary. -/
def sceneMeta (sc : MockScene) : String × ℤ × ℤ × ℚ :=
  (sc.name, sc.width, sc.height, sc.created_at)

/-! ## Foundry integrator (`FoundryIntegrator` in `aruco_tracker.py`)

`create_or_find_token` talks to the remote API; the remote is the mock
server model above.  Network failure (the `except` path returning
`None`) is modelled by a `reachable` flag: when it is `false` the call
returns `none` and performs no request. -/

/-- Python `f"{n:02d}"`: decimal rendering padded with zeros to width 2. -/
def pad2 (n : ℤ) : String :=
  if 0 ≤ n ∧ n < 10 then "0" ++ toString n else toString n

/-- The `item_names` table of `create_or_find_token`. -/
def item_names (id : ℕ) : Option String :=
  match id with
  | 30 => some "Goblin" | 31 => some "Orc" | 32 => some "Skeleton"
  | 33 => some "Dragon" | 34 => some "Troll" | 35 => some "Wizard_Enemy"
  | 36 => some "Beast" | 37 => some "Demon"
  | 40 => some "Treasure_Chest" | 41 => some "Magic_Item"
  | 42 => some "Gold_Pile" | 43 => some "Potion" | 44 => some "Weapon"
  | 45 => some "Armor" | 46 => some "Scroll" | 47 => some "Key"
  | 50 => some "NPC_Merchant" | 51 => some "NPC_Guard"
  | 52 => some "NPC_Noble" | 53 => some "NPC_Innkeeper"
  | 54 => some "NPC_Priest" | 55 => some "Door" | 56 => some "Trap"
  | 57 => some "Fire_Hazard" | 58 => some "Altar" | 59 => some "Portal"
  | 60 => some "Vehicle" | 61 => some "Objective"
  | _ => none

/-- The display-name derivation at the top of `create_or_find_token`. -/
def token_name_for (arucoId : ℕ) (markerType : String) : String :=
  if markerType = "player" then
    "Player_" ++ pad2 ((arucoId : ℤ) - 10 + 1)
  else if markerType = "item" then
    (item_names arucoId).getD ("Item_" ++ toString arucoId)
  else
    "Custom_" ++ toString arucoId

/-- The find predicate of `create_or_find_token`: match by display name
or by the `aruco_id` flag. -/
def matchesAruco (tokenName : String) (arucoId : ℕ) (t : MockToken) : Bool :=
  t.name = tokenName ∨ List.lookup "aruco_id" t.flags = some (.i arucoId)

/-- The POST body built by `create_or_find_token`. -/
def createPayloadFor (arucoId : ℕ) (markerType : String) : CreatePayload :=
  { name := some (token_name_for arucoId markerType)
    x := some 100
    y := some 100
    img := some "icons/svg/mystery-man.svg"
    width := some 1
    height := some 1
    flags := some [("aruco_id", .i arucoId), ("aruco_tracker", .b true),
                   ("marker_type", .s markerType)] }

/-- `FoundryIntegrator.create_or_find_token`: derive the display name,
GET the scene tokens and return the first match by name or `aruco_id`
flag, else POST a new token.  Returns the resolved remote ID (`none` on
failure), the remote state after the call, and the number of create
(POST) requests issued. -/
def create_or_find_token (reachable : Bool) (srv : ServerState)
    (sceneId : String) (arucoId : ℕ) (markerType : String) (now : ℚ) :
    Option String × ServerState × ℕ :=
  if reachable = false then (none, srv, 0)
  else
    let tokenName := token_name_for arucoId markerType
    let (resp, srv1) := handle_get_scene_tokens srv sceneId
    match resp with
    | some tokens =>
        match tokens.find? (matchesAruco tokenName arucoId) with
        | some t => (some t.id, srv1, 0)
        | none =>
            match handle_create_token srv1 sceneId
                (createPayloadFor arucoId markerType) now with
            | (some t, srv2) => (some t.id, srv2, 1)
            | (none, srv2) => (none, srv2, 1)
    | none =>
        match handle_create_token srv1 sceneId
            (createPayloadFor arucoId markerType) now with
        | (some t, srv2) => (some t.id, srv2, 1)
        | (none, srv2) => (none, srv2, 1)

/-- The identity-resolution step of `detect_aruco_markers` (lines
535-540): reuse the ledger entry `foundry_token_id` when the marker is
already tracked, otherwise call `create_or_find_token`. -/
def resolve_foundry_token_id (tracked : TokenMap) (reachable : Bool)
    (srv : ServerState) (sceneId : String) (markerId : ℕ)
    (markerType : String) (now : ℚ) : Option String × ServerState × ℕ :=
  match tracked markerId with
  | some t => (t.foundry_token_id, srv, 0)
  | none => create_or_find_token reachable srv sceneId markerId markerType now

/-! ## Surface calibrator (`SurfaceCalibrator` in `aruco_tracker.py`)

`cv2.getPerspectiveTransform` solves the 8x8 linear system mapping the
four source points onto the four destination points (LU decomposition,
no validation and no exception: a singular system yields garbage
coefficients, here the zero results of division by zero in `ℚ`).  The
solver below is Gaussian elimination over `ℚ` on the augmented system. -/

/-- Pick the first row with a nonzero leading entry as pivot, returning
it together with the remaining rows.  When every leading entry is zero
(a singular system) the dummy pivot `[]` is returned and the downstream
divisions by zero produce garbage, as the LU solve does. -/
def pickPivot : List (List ℚ) → List ℚ × List (List ℚ)
  | [] => ([], [])
  | r :: rs =>
      if r.headD 0 ≠ 0 then (r, rs)
      else
        let (p, rest) := pickPivot rs
        (p, r :: rest)

/-- Eliminate the leading column of every row using the pivot row. -/
def elimColumn (p : List ℚ) (rows : List (List ℚ)) : List (List ℚ) :=
  rows.map fun r =>
    let f := r.headD 0 / p.headD 0
    (List.zipWith (fun a b => a - f * b) r p).tail

/-- Back-substitution for the pivot row given the solution of the
remaining variables. -/
def backSub (p : List ℚ) (sol : List ℚ) : ℚ :=
  let rhs := p.tail.getLastD 0
  let dot := (List.zipWith (fun a b => a * b) p.tail sol).sum
  (rhs - dot) / p.headD 0

/-- Solve an augmented linear system with the given number of
variables by Gaussian elimination. -/
def solveLin : ℕ → List (List ℚ) → List ℚ
  | 0, _ => []
  | k + 1, rows =>
      let (p, rest) := pickPivot rows
      let sol := solveLin k (elimColumn p rest)
      backSub p sol :: sol

/-- The two augmented rows contributed by each source/destination point
pair of the perspective-transform system. -/
def persp_rows : List Pt → List Pt → List (List ℚ)
  | s :: ss, d :: ds =>
      [s.1, s.2, 1, 0, 0, 0, -d.1 * s.1, -d.1 * s.2, d.1]
        :: [0, 0, 0, s.1, s.2, 1, -d.2 * s.1, -d.2 * s.2, d.2]
        :: persp_rows ss ds
  | _, _ => []

/-- `cv2.getPerspectiveTransform(src, dst)`: the 3x3 homography matrix
in row-major order, with the last coefficient fixed to 1. -/
def getPerspectiveTransform (src dst : List Pt) : List ℚ :=
  solveLin 8 (persp_rows src dst) ++ [1]

/-- The `SurfaceCalibrator` state: the four reference corners, the
optional installed transform, the destination rectangle size and the
configured ID ranges. -/
structure SurfaceCalibrator where
  surface_corners : Option (List Pt) := none
  transform_matrix : Option (List ℚ) := none
  surface_width : ℚ := 1000
  surface_height : ℚ := 1000
  player_id_range : ℕ × ℕ := (10, 25)
  item_id_range : ℕ × ℕ := (30, 61)
  deriving Repr, DecidableEq

/-- The destination rectangle `dst_points` of
`_calculate_transform_matrix`: `(0,0),(W,0),(W,H),(0,H)`. -/
def dst_points (w h : ℚ) : List Pt := [(0, 0), (w, 0), (w, h), (0, h)]

/-- `SurfaceCalibrator._calculate_transform_matrix`: install the
perspective transform computed from `surface_corners` (set by the
caller) unconditionally — the source performs no degeneracy check and
has no error path. -/
def calculate_transform_matrix (cal : SurfaceCalibrator) : SurfaceCalibrator :=
  { cal with
    transform_matrix := cal.surface_corners.map fun c =>
      getPerspectiveTransform c (dst_points cal.surface_width cal.surface_height) }

/-- The final step of `_manual_corner_selection` (and of
`_detect_corner_markers`): store the four picked corner points and
derive the transform. -/
def set_corners_and_calibrate (cal : SurfaceCalibrator) (pts : List Pt) :
    SurfaceCalibrator :=
  calculate_transform_matrix { cal with surface_corners := some pts }

/-- The uncalibrated check `self.transform_matrix is None` that
`camera_to_surface_coords` performs and that callers can observe. -/
def is_uncalibrated (cal : SurfaceCalibrator) : Bool :=
  cal.transform_matrix.isNone

/-- `SurfaceCalibrator.camera_to_surface_coords`: identity fallback when
no transform is installed, else `cv2.perspectiveTransform` with the
stored homography. -/
def camera_to_surface_coords (cal : SurfaceCalibrator) (camera_x camera_y : ℤ) :
    ℚ × ℚ :=
  match cal.transform_matrix with
  | none => ((camera_x : ℚ), (camera_y : ℚ))
  | some M =>
      let x : ℚ := camera_x
      let y : ℚ := camera_y
      let w := M.getD 6 0 * x + M.getD 7 0 * y + M.getD 8 0
      ((M.getD 0 0 * x + M.getD 1 0 * y + M.getD 2 0) / w,
       (M.getD 3 0 * x + M.getD 4 0 * y + M.getD 5 0) / w)

/-! ## Main tracker (`FoundryArucoTracker` in `aruco_tracker.py`)

A raw detection from the ArUco detector is a marker ID and a pixel
polygon.  The aspect ratio of the minimum-area bounding rectangle comes
from `cv2.minAreaRect` (external geometry with irrational rotation); it
is carried on the raw marker, with value 1 when the rectangle is
degenerate, matching the `width > 0 and height > 0` guard that skips
the multiplication in that case. -/

/-- One raw marker detection: `(markerId, polygon)` plus the
`cv2.minAreaRect` aspect ratio `min(w,h)/max(w,h)` of the polygon. -/
structure RawMarker where
  id : ℕ
  poly : List Pt
  aspect : ℚ := 1
  deriving Repr, DecidableEq

/-- The corner-marker ID list of the skip test
`if marker_id in [0, 1, 2, 3]: continue`. -/
def corner_id_list : List ℕ := [0, 1, 2, 3]

/-- `int(np.mean(...))` over the polygon x coordinates. -/
def polyMeanX (poly : List Pt) : ℤ :=
  pyInt ((poly.map Prod.fst).sum / poly.length)

/-- `int(np.mean(...))` over the polygon y coordinates. -/
def polyMeanY (poly : List Pt) : ℤ :=
  pyInt ((poly.map Prod.snd).sum / poly.length)

/-- `cv2.contourArea`: half the absolute shoelace sum of the polygon. -/
def contourArea (poly : List Pt) : ℚ :=
  |(List.zipWith (fun p q => p.1 * q.2 - q.1 * p.2) poly (poly.rotate 1)).sum| / 2

/-- The marker classification of `detect_aruco_markers` (lines 527-533):
membership in the configured player and item ID ranges, else custom. -/
def markerTypeOf (cal : SurfaceCalibrator) (id : ℕ) : String :=
  if cal.player_id_range.1 ≤ id ∧ id ≤ cal.player_id_range.2 then "player"
  else if cal.item_id_range.1 ≤ id ∧ id ≤ cal.item_id_range.2 then "item"
  else "custom"

/-- The per-marker body of `detect_aruco_markers` for a non-corner
marker: centroid, surface coordinates, confidence from area and
squareness, category, and remote identity resolution. -/
def processMarker (cal : SurfaceCalibrator) (tracked : TokenMap)
    (reachable : Bool) (srv : ServerState) (sceneId : String) (now : ℚ)
    (m : RawMarker) : ArucoToken × ServerState :=
  let cx := polyMeanX m.poly
  let cy := polyMeanY m.poly
  let (sx, sy) := camera_to_surface_coords cal cx cy
  let confidence := min 1 (contourArea m.poly / 10000) * m.aspect
  let mt := markerTypeOf cal m.id
  let (ftid, srv', _) :=
    resolve_foundry_token_id tracked reachable srv sceneId m.id mt now
  ({ id := m.id
     x := sx
     y := sy
     confidence := confidence
     last_seen := now
     corners := m.poly.map (fun p => (pyInt p.1, pyInt p.2))
     marker_type := mt
     foundry_token_id := ftid }, srv')

/-- `FoundryArucoTracker.detect_aruco_markers`: skip corner markers,
build a token for every other detection, threading the remote state
through the identity resolutions of one frame. -/
def detect_aruco_markers (cal : SurfaceCalibrator) (tracked : TokenMap)
    (reachable : Bool) (sceneId : String) (now : ℚ) :
    ServerState → List RawMarker → List ArucoToken × ServerState
  | srv, [] => ([], srv)
  | srv, m :: ms =>
      if m.id ∈ corner_id_list then
        detect_aruco_markers cal tracked reachable sceneId now srv ms
      else
        let (t, srv') := processMarker cal tracked reachable srv sceneId now m
        let (ts, srv'') :=
          detect_aruco_markers cal tracked reachable sceneId now srv' ms
        (t :: ts, srv'')

/-- The tracker fields the core loop mutates (camera, detector and
display handles are external I/O and carry no tracked state). -/
structure FoundryArucoTracker where
  tracked_tokens : TokenMap := emptyTokenMap
  token_timeout : ℚ := 3
  update_interval : ℚ := 1 / 10
  last_update_time : ℚ := 0

/-- A freshly constructed tracker (`FoundryArucoTracker.__init__`). -/
def tracker_init : FoundryArucoTracker := {}

/-- `FoundryArucoTracker.send_foundry_updates`: when the throttle
interval has not elapsed since the last update, return without sending;
otherwise run the update block (WebSocket pushes and module export) and
stamp `last_update_time`.  The boolean records whether the block ran. -/
def send_foundry_updates (tr : FoundryArucoTracker) (now : ℚ) :
    Bool × FoundryArucoTracker :=
  if now - tr.last_update_time < tr.update_interval then (false, tr)
  else (true, { tr with last_update_time := now })

/-- The per-frame inputs of one loop iteration of `run_async`. -/
structure CycleInput where
  markers : List RawMarker
  reachable : Bool
  detect_time : ℚ
  update_time : ℚ

/-- One iteration of the steady-state loop in `run_async`:
`detect_aruco_markers` followed by `update_tracked_tokens`. -/
def tracker_cycle (cal : SurfaceCalibrator) (sceneId : String)
    (tracked : TokenMap) (srv : ServerState) (inp : CycleInput) :
    TokenMap × ServerState :=
  let r := detect_aruco_markers cal tracked inp.reachable sceneId
    inp.detect_time srv inp.markers
  (update_tracked_tokens r.1 inp.update_time tracker_init.token_timeout tracked,
   r.2)

/-- The ledger/remote states reachable by running the tracker loop from
a fresh tracker against any sequence of frames. -/
inductive ReachableTracker : TokenMap → ServerState → Prop where
  | init (srv : ServerState) : ReachableTracker emptyTokenMap srv
  | step (tracked : TokenMap) (srv : ServerState) (cal : SurfaceCalibrator)
      (sceneId : String) (inp : CycleInput) :
      ReachableTracker tracked srv →
      ReachableTracker (tracker_cycle cal sceneId tracked srv inp).1
        (tracker_cycle cal sceneId tracked srv inp).2

/-! ## Concrete instances used by the witnesses and counterexamples -/

/-- A tracked token last seen at time 7.9. -/
def tokStale : ArucoToken :=
  { id := 5, x := 1, y := 2, confidence := 1 / 2, last_seen := 79 / 10,
    corners := [], marker_type := "custom" }

/-- A freshly detected token, seen at time 8.1. -/
def tokFresh : ArucoToken :=
  { id := 7, x := 3, y := 4, confidence := 1, last_seen := 81 / 10,
    corners := [], marker_type := "player" }

/-- A ledger holding only `tokStale` under key 5. -/
def ledgerEx : TokenMap := fun i => if i = 5 then some tokStale else none

/-- A mock server with one empty scene. -/
def srvEx : ServerState := { scenes := [("scene1", { id := "scene1" })] }

/-- A raw detection of player marker 15. -/
def mkEx : RawMarker :=
  { id := 15, poly := [(0, 0), (10, 0), (10, 10), (0, 10)] }

/-- The token produced by a first sighting of marker 15 while the remote
is unreachable: its `foundry_token_id` is `none`. -/
def tokFailed : ArucoToken :=
  (processMarker {} emptyTokenMap false srvEx "scene1" 1 mkEx).1

/-- The ledger after merging that failed-resolution token. -/
def failedLedger : TokenMap := mergeDetections [tokFailed] emptyTokenMap

/-- Four collinear reference points. -/
def collinearQuad : List Pt := [(0, 0), (1, 1), (2, 2), (3, 3)]

/-- A mock token stored on the test server. -/
def tokMockA : MockToken :=
  { id := "tokA", name := "Player_01", x := 100, y := 100,
    flags := [("aruco_id", .i 10)], created_at := 1, updated_at := 1 }

/-- A second mock token stored on the test server. -/
def tokMockB : MockToken :=
  { id := "tokB", name := "Goblin", x := 200, y := 300,
    created_at := 1, updated_at := 1 }

/-- A mock server holding one scene with the two tokens above. -/
def srvTwoTokens : ServerState :=
  { scenes := [("scene1",
      { id := "scene1", tokens := [("tokA", tokMockA), ("tokB", tokMockB)] })] }

/-! ## Helper lemmas -/

theorem mergeDetections_apply (d : List ArucoToken) (m : TokenMap) (i : ℕ) :
    mergeDetections d m i =
      match lastWrite d i with
      | some t => some t
      | none => m i := by
  induction d generalizing m with
  | nil => simp [mergeDetections, lastWrite]
  | cons t ts ih =>
      simp only [mergeDetections, lastWrite, ih]
      cases lastWrite ts i with
      | some u => rfl
      | none => by_cases h : i = t.id <;> simp [h]

theorem lastWrite_eq_none_of_not_mem (d : List ArucoToken) (i : ℕ)
    (h : ∀ t ∈ d, t.id ≠ i) : lastWrite d i = none := by
  induction d with
  | nil => rfl
  | cons t ts ih =>
      have ht : t.id ≠ i := h t (List.mem_cons_self t ts)
      have hrest : lastWrite ts i = none :=
        ih (fun u hu => h u (List.mem_cons_of_mem t hu))
      simp only [lastWrite, hrest]
      exact if_neg (fun hi : i = t.id => ht hi.symm)

theorem mergeDetections_not_mem (d : List ArucoToken) (m : TokenMap) (i : ℕ)
    (h : ∀ t ∈ d, t.id ≠ i) : mergeDetections d m i = m i := by
  rw [mergeDetections_apply, lastWrite_eq_none_of_not_mem d i h]

theorem mergeDetections_lastWrite (d : List ArucoToken) (m : TokenMap) (i : ℕ)
    (t : ArucoToken) (h : lastWrite d i = some t) :
    mergeDetections d m i = some t := by
  rw [mergeDetections_apply, h]

theorem update_tracked_tokens_apply (d : List ArucoToken) (now timeout : ℚ)
    (m : TokenMap) (i : ℕ) :
    update_tracked_tokens d now timeout m i =
      match mergeDetections d m i with
      | none => none
      | some t => if now - t.last_seen > timeout then none else some t := rfl

theorem create_or_find_token_creates_le_one (reachable : Bool)
    (srv : ServerState) (sceneId : String) (arucoId : ℕ)
    (markerType : String) (now : ℚ) :
    (create_or_find_token reachable srv sceneId arucoId markerType now).2.2 ≤ 1 := by
  unfold create_or_find_token
  by_cases hr : reachable = false
  · simp [hr]
  · simp only [hr, if_false]
    rcases h1 : handle_get_scene_tokens srv sceneId with ⟨resp, srv1⟩
    cases resp with
    | none =>
        rcases h2 : handle_create_token srv1 sceneId
            (createPayloadFor arucoId markerType) now with ⟨r, srv2⟩
        cases r <;> simp [h1, h2]
    | some tokens =>
        cases hf : tokens.find? (matchesAruco (token_name_for arucoId markerType) arucoId) with
        | some t => simp [h1, hf]
        | none =>
            rcases h2 : handle_create_token srv1 sceneId
                (createPayloadFor arucoId markerType) now with ⟨r, srv2⟩
            cases r <;> simp [h1, hf, h2]

theorem resolve_eq_of_tracked (tracked : TokenMap) (reachable : Bool)
    (srv : ServerState) (sceneId : String) (markerId : ℕ)
    (markerType : String) (now : ℚ) (t : ArucoToken)
    (h : tracked markerId = some t) :
    resolve_foundry_token_id tracked reachable srv sceneId markerId
      markerType now = (t.foundry_token_id, srv, 0) := by
  unfold resolve_foundry_token_id
  rw [h]

theorem resolve_eq_of_untracked (tracked : TokenMap) (reachable : Bool)
    (srv : ServerState) (sceneId : String) (markerId : ℕ)
    (markerType : String) (now : ℚ) (h : tracked markerId = none) :
    resolve_foundry_token_id tracked reachable srv sceneId markerId
      markerType now =
      create_or_find_token reachable srv sceneId markerId markerType now := by
  unfold resolve_foundry_token_id
  rw [h]

theorem resolve_creates_le_one (tracked : TokenMap) (reachable : Bool)
    (srv : ServerState) (sceneId : String) (markerId : ℕ)
    (markerType : String) (now : ℚ) :
    (resolve_foundry_token_id tracked reachable srv sceneId markerId
      markerType now).2.2 ≤ 1 := by
  unfold resolve_foundry_token_id
  cases tracked markerId with
  | some t => simp
  | none => exact create_or_find_token_creates_le_one _ _ _ _ _ _

theorem handle_get_scene_tokens_scenes (st : ServerState) (sceneId : String) :
    (handle_get_scene_tokens st sceneId).2.scenes = st.scenes := by
  unfold handle_get_scene_tokens
  cases List.lookup sceneId st.scenes <;> rfl

theorem handle_create_token_isSome (st : ServerState) (sceneId : String)
    (data : CreatePayload) (now : ℚ)
    (h : (List.lookup sceneId st.scenes).isSome = true) :
    (handle_create_token st sceneId data now).1.isSome = true := by
  unfold handle_create_token
  cases hs : List.lookup sceneId st.scenes with
  | none => rw [hs] at h; simp at h
  | some sc => rfl

theorem create_or_find_token_isSome (srv : ServerState) (sceneId : String)
    (arucoId : ℕ) (markerType : String) (now : ℚ)
    (h : (List.lookup sceneId srv.scenes).isSome = true) :
    (create_or_find_token true srv sceneId arucoId markerType now).1.isSome = true := by
  unfold create_or_find_token
  simp only [Bool.true_eq_false, if_false]
  rcases h1 : handle_get_scene_tokens srv sceneId with ⟨resp, srv1⟩
  have hsc1 : srv1.scenes = srv.scenes := by
    have := handle_get_scene_tokens_scenes srv sceneId
    rw [h1] at this
    exact this
  cases resp with
  | none =>
      rcases h2 : handle_create_token srv1 sceneId
          (createPayloadFor arucoId markerType) now with ⟨r, srv2⟩
      have : r.isSome = true := by
        have := handle_create_token_isSome srv1 sceneId
          (createPayloadFor arucoId markerType) now (by rw [hsc1]; exact h)
        rw [h2] at this
        exact this
      cases r with
      | none => simp at this
      | some t => simp [h1, h2]
  | some tokens =>
      cases hf : tokens.find? (matchesAruco (token_name_for arucoId markerType) arucoId) with
      | some t => simp [h1, hf]
      | none =>
          rcases h2 : handle_create_token srv1 sceneId
              (createPayloadFor arucoId markerType) now with ⟨r, srv2⟩
          have : r.isSome = true := by
            have := handle_create_token_isSome srv1 sceneId
              (createPayloadFor arucoId markerType) now (by rw [hsc1]; exact h)
            rw [h2] at this
            exact this
          cases r with
          | none => simp at this
          | some t => simp [h1, hf, h2]

theorem detect_aruco_markers_mem (cal : SurfaceCalibrator)
    (tracked : TokenMap) (reachable : Bool) (sceneId : String) (now : ℚ)
    (srv : ServerState) (ms : List RawMarker) (t : ArucoToken)
    (ht : t ∈ (detect_aruco_markers cal tracked reachable sceneId now srv ms).1) :
    t.id ∉ corner_id_list ∧ t.marker_type = markerTypeOf cal t.id := by
  induction ms generalizing srv with
  | nil => simp [detect_aruco_markers] at ht
  | cons m ms ih =>
      by_cases hc : m.id ∈ corner_id_list
      · rw [detect_aruco_markers, if_pos hc] at ht
        exact ih srv ht
      · rw [detect_aruco_markers, if_neg hc] at ht
        rcases hp : processMarker cal tracked reachable srv sceneId now m
          with ⟨tok, srv'⟩
        rw [hp] at ht
        dsimp only at ht
        rcases hd : detect_aruco_markers cal tracked reachable sceneId now srv' ms
          with ⟨ts, srv''⟩
        rw [hd] at ht
        dsimp only at ht
        simp only [List.mem_cons] at ht
        cases ht with
        | inl h =>
            subst h
            simp only [processMarker, Prod.mk.injEq] at hp
            obtain ⟨hp1, -⟩ := hp
            subst hp1
            exact ⟨hc, rfl⟩
        | inr h =>
            have := ih srv' (by rw [hd]; exact h)
            exact this

theorem lookup_cons_self {α : Type} (k : String) (v : α)
    (l : List (String × α)) : List.lookup k ((k, v) :: l) = some v := by
  simp [List.lookup]

theorem lookup_cons_ne {α : Type} (k k0 : String) (v : α)
    (l : List (String × α)) (h : k ≠ k0) :
    List.lookup k ((k0, v) :: l) = List.lookup k l := by
  have hb : (k == k0) = false := beq_eq_false_iff_ne.mpr h
  simp [List.lookup, hb]

theorem lookup_assocSet_self {α : Type} (k : String) (v : α)
    (l : List (String × α)) : List.lookup k (assocSet k v l) = some v := by
  induction l with
  | nil => exact lookup_cons_self k v []
  | cons kv rest ih =>
      rcases kv with ⟨k', v'⟩
      by_cases h : k' = k
      · rw [assocSet, if_pos h]
        exact lookup_cons_self k v rest
      · rw [assocSet, if_neg h, lookup_cons_ne k k' v' _ (fun hk => h hk.symm)]
        exact ih

theorem lookup_assocSet_ne {α : Type} (k k2 : String) (v : α)
    (l : List (String × α)) (h : k2 ≠ k) :
    List.lookup k2 (assocSet k v l) = List.lookup k2 l := by
  induction l with
  | nil =>
      rw [assocSet, lookup_cons_ne k2 k v [] h]
  | cons kv rest ih =>
      rcases kv with ⟨k', v'⟩
      by_cases hk : k' = k
      · have hne' : k2 ≠ k' := fun he => h (he.trans hk)
        rw [assocSet, if_pos hk, lookup_cons_ne k2 k v rest h,
          lookup_cons_ne k2 k' v' rest hne']
      · rw [assocSet, if_neg hk]
        by_cases h2 : k2 = k'
        · subst h2
          rw [lookup_cons_self, lookup_cons_self]
        · rw [lookup_cons_ne k2 k' v' _ h2, lookup_cons_ne k2 k' v' _ h2]
          exact ih

theorem findTokenScene_mem_keys (tid : String)
    (l : List (String × MockScene)) (sid : String) (sc : MockScene)
    (h : findTokenScene tid l = some (sid, sc)) :
    sid ∈ l.map Prod.fst := by
  induction l with
  | nil => simp [findTokenScene] at h
  | cons kv rest ih =>
      rcases kv with ⟨sid0, sc0⟩
      by_cases hc : (List.lookup tid sc0.tokens).isSome = true
      · rw [findTokenScene, if_pos hc] at h
        simp only [Option.some.injEq, Prod.mk.injEq] at h
        simp [h.1]
      · rw [findTokenScene, if_neg hc] at h
        simp [ih h]

theorem findTokenScene_lookup (tid : String)
    (l : List (String × MockScene)) (sid : String) (sc : MockScene)
    (hnd : (l.map Prod.fst).Nodup)
    (h : findTokenScene tid l = some (sid, sc)) :
    List.lookup sid l = some sc := by
  induction l with
  | nil => simp [findTokenScene] at h
  | cons kv rest ih =>
      rcases kv with ⟨sid0, sc0⟩
      simp only [List.map_cons, List.nodup_cons] at hnd
      by_cases hc : (List.lookup tid sc0.tokens).isSome = true
      · rw [findTokenScene, if_pos hc] at h
        simp only [Option.some.injEq, Prod.mk.injEq] at h
        rw [← h.1, lookup_cons_self, h.2]
      · rw [findTokenScene, if_neg hc] at h
        have hne : sid ≠ sid0 := by
          intro he
          exact hnd.1 (he ▸ findTokenScene_mem_keys tid rest sid sc h)
        rw [lookup_cons_ne sid sid0 sc0 _ hne]
        exact ih hnd.2 h

theorem updateScenes_lookup_found (tid : String) (t' : MockToken)
    (l : List (String × MockScene)) (sid : String) (sc : MockScene)
    (hnd : (l.map Prod.fst).Nodup)
    (h : findTokenScene tid l = some (sid, sc)) :
    List.lookup sid (updateScenes tid t' l) =
      some { sc with tokens := assocSet tid t' sc.tokens } := by
  induction l with
  | nil => simp [findTokenScene] at h
  | cons kv rest ih =>
      rcases kv with ⟨sid0, sc0⟩
      simp only [List.map_cons, List.nodup_cons] at hnd
      by_cases hc : (List.lookup tid sc0.tokens).isSome = true
      · rw [findTokenScene, if_pos hc] at h
        simp only [Option.some.injEq, Prod.mk.injEq] at h
        rw [updateScenes, if_pos hc, ← h.1, lookup_cons_self, h.2]
      · rw [findTokenScene, if_neg hc] at h
        have hne : sid ≠ sid0 := by
          intro he
          exact hnd.1 (he ▸ findTokenScene_mem_keys tid rest sid sc h)
        rw [updateScenes, if_neg hc, lookup_cons_ne sid sid0 sc0 _ hne]
        exact ih hnd.2 h

theorem updateScenes_lookup_ne (tid : String) (t' : MockToken)
    (l : List (String × MockScene)) (sid : String) (sc : MockScene)
    (h : findTokenScene tid l = some (sid, sc)) (sid2 : String)
    (hne : sid2 ≠ sid) :
    List.lookup sid2 (updateScenes tid t' l) = List.lookup sid2 l := by
  induction l with
  | nil => simp [updateScenes]
  | cons kv rest ih =>
      rcases kv with ⟨sid0, sc0⟩
      by_cases hc : (List.lookup tid sc0.tokens).isSome = true
      · rw [findTokenScene, if_pos hc] at h
        simp only [Option.some.injEq, Prod.mk.injEq] at h
        have hne0 : sid2 ≠ sid0 := h.1 ▸ hne
        rw [updateScenes, if_pos hc, lookup_cons_ne sid2 sid0 _ _ hne0,
          lookup_cons_ne sid2 sid0 sc0 _ hne0]
      · rw [findTokenScene, if_neg hc] at h
        rw [updateScenes, if_neg hc]
        by_cases h2 : sid2 = sid0
        · subst h2
          rw [lookup_cons_self, lookup_cons_self]
        · rw [lookup_cons_ne sid2 sid0 sc0 _ h2, lookup_cons_ne sid2 sid0 sc0 _ h2]
          exact ih h

theorem updateScenes_meta (tid : String) (t' : MockToken)
    (l : List (String × MockScene)) (sid2 : String) :
    (List.lookup sid2 (updateScenes tid t' l)).map sceneMeta =
      (List.lookup sid2 l).map sceneMeta := by
  induction l with
  | nil => simp [updateScenes]
  | cons kv rest ih =>
      rcases kv with ⟨sid0, sc0⟩
      by_cases hc : (List.lookup tid sc0.tokens).isSome = true
      · rw [updateScenes, if_pos hc]
        by_cases h2 : sid2 = sid0
        · subst h2
          rw [lookup_cons_self, lookup_cons_self]
          rfl
        · rw [lookup_cons_ne sid2 sid0 _ _ h2, lookup_cons_ne sid2 sid0 sc0 _ h2]
      · rw [updateScenes, if_neg hc]
        by_cases h2 : sid2 = sid0
        · subst h2
          rw [lookup_cons_self, lookup_cons_self]
        · rw [lookup_cons_ne sid2 sid0 sc0 _ h2, lookup_cons_ne sid2 sid0 sc0 _ h2]
          exact ih

theorem processMarker_eq (cal : SurfaceCalibrator) (tracked : TokenMap)
    (reachable : Bool) (srv : ServerState) (sceneId : String) (now : ℚ)
    (m : RawMarker) :
    processMarker cal tracked reachable srv sceneId now m =
      ({ id := m.id
         x := (camera_to_surface_coords cal (polyMeanX m.poly) (polyMeanY m.poly)).1
         y := (camera_to_surface_coords cal (polyMeanX m.poly) (polyMeanY m.poly)).2
         confidence := min 1 (contourArea m.poly / 10000) * m.aspect
         last_seen := now
         corners := m.poly.map (fun p => (pyInt p.1, pyInt p.2))
         marker_type := markerTypeOf cal m.id
         foundry_token_id := (resolve_foundry_token_id tracked reachable srv
           sceneId m.id (markerTypeOf cal m.id) now).1 },
       (resolve_foundry_token_id tracked reachable srv sceneId m.id
         (markerTypeOf cal m.id) now).2.1) := by
  simp [processMarker]

/-! ## Claim theorems -/

/-- C1: the evict step run after the merge removes exactly those entries
whose age exceeds the timeout (`now - last_seen > timeout`, default
3.0s): a token not re-ingested for longer than the timeout is absent
afterwards, and a token re-ingested within the timeout is retained with
its `last_seen` updated to the ingest time. -/
theorem evictStale_removes_exactly_timed_out (m : TokenMap)
    (d : List ArucoToken) (now timeout : ℚ) (i : ℕ) :
    tracker_init.token_timeout = 3 ∧
    (∀ t, mergeDetections d m i = some t →
      (update_tracked_tokens d now timeout m i = none ↔
        now - t.last_seen > timeout)) ∧
    (∀ t, (∀ u ∈ d, u.id ≠ i) → m i = some t → now - t.last_seen > timeout →
      update_tracked_tokens d now timeout m i = none) ∧
    (∀ t, lastWrite d i = some t → now - t.last_seen ≤ timeout →
      update_tracked_tokens d now timeout m i = some t) := by
  refine ⟨rfl, ?_, ?_, ?_⟩
  · intro t ht
    rw [update_tracked_tokens_apply, ht]
    dsimp only
    constructor
    · intro hnone
      by_contra hle
      rw [if_neg hle] at hnone
      exact Option.noConfusion hnone
    · intro hgt
      rw [if_pos hgt]
  · intro t hnm hm hgt
    rw [update_tracked_tokens_apply, mergeDetections_not_mem d m i hnm, hm]
    exact if_pos hgt
  · intro t hl hle
    rw [update_tracked_tokens_apply, mergeDetections_lastWrite d m i t hl]
    exact if_neg (not_lt.mpr hle)

/-- Witness for C1: with a 2.0s timeout and eviction clock 10, the entry
last seen at 7.9 (2.1s ago, not re-ingested) is evicted, and the token
re-ingested at 8.1 (1.9s ago) is retained with its batch value. -/
theorem evictStale_removes_exactly_timed_out_witness :
    update_tracked_tokens [tokFresh] 10 2 ledgerEx 5 = none ∧
    update_tracked_tokens [tokFresh] 10 2 ledgerEx 7 = some tokFresh := by
  constructor
  · exact (evictStale_removes_exactly_timed_out ledgerEx [tokFresh] 10 2 5).2.2.1
      tokStale (by decide) rfl (by norm_num [tokStale])
  · exact (evictStale_removes_exactly_timed_out ledgerEx [tokFresh] 10 2 7).2.2.2
      tokFresh rfl (by norm_num [tokFresh])

/-- C9: the merge-then-evict cycle leaves entries whose ID is not in the
batch exactly evicted-or-unmodified, and every batch token whose
detection timestamp is within the timeout of the eviction clock is
present afterwards with exactly the batch field values, the last write
winning among duplicate IDs in one batch. -/
theorem merge_evict_frame_conditions (m : TokenMap) (d : List ArucoToken)
    (now timeout : ℚ) (i : ℕ) :
    ((∀ t ∈ d, t.id ≠ i) →
      update_tracked_tokens d now timeout m i = evictStale m now timeout i) ∧
    (∀ t, lastWrite d i = some t → now - t.last_seen ≤ timeout →
      update_tracked_tokens d now timeout m i = some t) := by
  constructor
  · intro hnm
    rw [update_tracked_tokens_apply, mergeDetections_not_mem d m i hnm]
    rfl
  · intro t hl hle
    rw [update_tracked_tokens_apply, mergeDetections_lastWrite d m i t hl]
    exact if_neg (not_lt.mpr hle)

/-- Witness for C9: the entry under key 5 is untouched by a batch not
naming it (value equal to its plain eviction), and the batch token under
key 7 lands with exactly the batch fields. -/
theorem merge_evict_frame_conditions_witness :
    update_tracked_tokens [tokFresh] 9 2 ledgerEx 5 = evictStale ledgerEx 9 2 5 ∧
    update_tracked_tokens [tokFresh] 9 2 ledgerEx 7 = some tokFresh := by
  constructor
  · exact (merge_evict_frame_conditions ledgerEx [tokFresh] 9 2 5).1 (by decide)
  · exact (merge_evict_frame_conditions ledgerEx [tokFresh] 9 2 7).2
      tokFresh rfl (by norm_num [tokFresh])

/-- C4: `send_foundry_updates` is throttled to at most one send per
configured interval (default 100 ms): of two attempts closer together
than the interval only the first sends, and an attempt after the
interval has elapsed sends again. -/
theorem send_foundry_updates_throttled (tr : FoundryArucoTracker)
    (t1 t2 t3 : ℚ) (h1 : tr.update_interval ≤ t1 - tr.last_update_time)
    (h2 : t2 - t1 < tr.update_interval)
    (h3 : tr.update_interval ≤ t3 - t1) :
    tracker_init.update_interval = 1 / 10 ∧
    (send_foundry_updates tr t1).1 = true ∧
    (send_foundry_updates (send_foundry_updates tr t1).2 t2).1 = false ∧
    (send_foundry_updates
      (send_foundry_updates (send_foundry_updates tr t1).2 t2).2 t3).1 = true := by
  have e1 : send_foundry_updates tr t1 = (true, { tr with last_update_time := t1 }) := by
    rw [send_foundry_updates, if_neg (not_lt.mpr h1)]
  have e2 : send_foundry_updates { tr with last_update_time := t1 } t2 =
      (false, { tr with last_update_time := t1 }) := by
    rw [send_foundry_updates, if_pos h2]
  have e3 : (send_foundry_updates { tr with last_update_time := t1 } t3).1 = true := by
    rw [send_foundry_updates, if_neg (not_lt.mpr h3)]
  refine ⟨rfl, ?_, ?_, ?_⟩
  · rw [e1]
  · rw [e1, e2]
  · rw [e1, e2]
    exact e3

/-- Witness for C4: with the default 100 ms interval, attempts at times
1, 1.05 and 1.1 send, skip, send. -/
theorem send_foundry_updates_throttled_witness :
    (send_foundry_updates tracker_init 1).1 = true ∧
    (send_foundry_updates (send_foundry_updates tracker_init 1).2 (21 / 20)).1
      = false ∧
    (send_foundry_updates
      (send_foundry_updates (send_foundry_updates tracker_init 1).2 (21 / 20)).2
      (11 / 10)).1 = true := by
  have h := send_foundry_updates_throttled tracker_init 1 (21 / 20) (11 / 10)
    (by norm_num [tracker_init]) (by norm_num [tracker_init])
    (by norm_num [tracker_init])
  exact ⟨h.2.1, h.2.2.1, h.2.2.2⟩

/-- C6: the category of every ingested detection is determined solely by
ID-range membership: IDs in the configured player range [10,25] are
"player", IDs in the item range [30,61] are "item", and non-corner IDs
outside both ranges are "custom". -/
theorem marker_category_by_id_range (cal : SurfaceCalibrator) (i : ℕ)
    (hp : cal.player_id_range = (10, 25)) (hi : cal.item_id_range = (30, 61)) :
    (10 ≤ i ∧ i ≤ 25 → markerTypeOf cal i = "player") ∧
    (30 ≤ i ∧ i ≤ 61 → markerTypeOf cal i = "item") ∧
    (i ∉ corner_id_list → ¬(10 ≤ i ∧ i ≤ 25) → ¬(30 ≤ i ∧ i ≤ 61) →
      markerTypeOf cal i = "custom") ∧
    (∀ tracked reachable sceneId now srv ms t,
      t ∈ (detect_aruco_markers cal tracked reachable sceneId now srv ms).1 →
      t.marker_type = markerTypeOf cal t.id) := by
  refine ⟨?_, ?_, ?_, ?_⟩
  · intro h
    rw [markerTypeOf, hp]
    exact if_pos h
  · intro h
    rw [markerTypeOf, hp, hi]
    rw [if_neg (by omega), if_pos h]
  · intro _ hnp hni
    rw [markerTypeOf, hp, hi, if_neg hnp, if_neg hni]
  · intro tracked reachable sceneId now srv ms t ht
    exact (detect_aruco_markers_mem cal tracked reachable sceneId now srv ms t ht).2

/-- Witness for C6: IDs 15, 45 and 70 classify as player, item and
custom under the default configured ranges. -/
theorem marker_category_by_id_range_witness :
    markerTypeOf {} 15 = "player" ∧ markerTypeOf {} 45 = "item" ∧
    markerTypeOf {} 70 = "custom" := by
  refine ⟨?_, ?_, ?_⟩
  · exact (marker_category_by_id_range {} 15 rfl rfl).1 (by decide)
  · exact (marker_category_by_id_range {} 45 rfl rfl).2.1 (by decide)
  · exact (marker_category_by_id_range {} 70 rfl rfl).2.2.1 (by decide)
      (by decide) (by decide)

/-- C7: before any calibration transform is installed, the
pixel-to-surface conversion returns every pixel input exactly
unchanged (the explicit identity fallback), and the uncalibrated state
is observable to callers through the `transform_matrix is None` test. -/
theorem uncalibrated_conversion_identity (cal : SurfaceCalibrator)
    (x y : ℤ) (h : cal.transform_matrix = none) :
    camera_to_surface_coords cal x y = ((x : ℚ), (y : ℚ)) ∧
    is_uncalibrated cal = true := by
  constructor
  · rw [camera_to_surface_coords, h]
  · rw [is_uncalibrated, h]
    rfl

/-- Witness for C7: a fresh calibrator passes the pixel (321, 654)
through unchanged and reports itself uncalibrated. -/
theorem uncalibrated_conversion_identity_witness :
    camera_to_surface_coords {} 321 654 = ((321 : ℚ), (654 : ℚ)) ∧
    is_uncalibrated {} = true :=
  uncalibrated_conversion_identity {} 321 654 rfl

/-- C8: in every reachable tracker state the token ledger contains no
entry keyed by a corner-designated marker ID (0, 1, 2 or 3): corner
detections are filtered out before ingest in every cycle. -/
theorem ledger_never_contains_corner_ids (tracked : TokenMap)
    (srv : ServerState) (h : ReachableTracker tracked srv) :
    ∀ i ∈ corner_id_list, tracked i = none := by
  induction h with
  | init srv =>
      intro i _
      rfl
  | step tracked srv cal sceneId inp hr ih =>
      intro i hi
      show update_tracked_tokens
        (detect_aruco_markers cal tracked inp.reachable sceneId inp.detect_time
          srv inp.markers).1
        inp.update_time tracker_init.token_timeout tracked i = none
      have hb : ∀ t ∈ (detect_aruco_markers cal tracked inp.reachable sceneId
          inp.detect_time srv inp.markers).1, t.id ≠ i := by
        intro t ht hid
        exact (detect_aruco_markers_mem cal tracked inp.reachable sceneId
          inp.detect_time srv inp.markers t ht).1 (hid ▸ hi)
      rw [update_tracked_tokens_apply, mergeDetections_not_mem _ _ _ hb, ih i hi]

/-- Witness for C8: the initial reachable state holds nothing under the
corner ID 0. -/
theorem ledger_never_contains_corner_ids_witness : emptyTokenMap 0 = none :=
  ledger_never_contains_corner_ids emptyTokenMap srvEx
    (ReachableTracker.init srvEx) 0 (by decide)

/-- Counterexample for C3: supplying four collinear reference points
does not leave the calibrator uncalibrated and produces no error — the
transform is installed anyway (the claimed `CalibrationError::Degenerate`
does not exist in the code, which has no error path at all). -/
theorem collinear_points_still_install_transform :
    (set_corners_and_calibrate {} collinearQuad).transform_matrix ≠ none ∧
    is_uncalibrated (set_corners_and_calibrate {} collinearQuad) = false := by
  constructor
  · intro h
    exact Option.noConfusion h
  · rfl

/-- C3 amended: `_calculate_transform_matrix` performs no degeneracy
validation and has no error path: for every set of reference points,
collinear ones included, it installs a perspective transform
unconditionally and the calibrator stops being uncalibrated. -/
theorem calculate_transform_matrix_unconditional (cal : SurfaceCalibrator)
    (pts : List Pt) :
    (set_corners_and_calibrate cal pts).transform_matrix =
      some (getPerspectiveTransform pts
        (dst_points cal.surface_width cal.surface_height)) ∧
    is_uncalibrated (set_corners_and_calibrate cal pts) = false :=
  ⟨rfl, rfl⟩

/-- C2: resolving the same marker ID twice in succession through the
detection path returns the same remote ID both times and triggers at
most one create call: the second resolution reads the ledger cache,
issues zero requests and leaves the remote state untouched; the first
resolution succeeds whenever the remote is reachable and the scene
exists (the find step is honored by the server model). -/
theorem create_or_find_token_idempotent (cal : SurfaceCalibrator)
    (tracked : TokenMap) (reachable : Bool) (srv : ServerState)
    (sceneId : String) (now1 tu now2 : ℚ) (m : RawMarker)
    (hkeep : tu - now1 ≤ tracker_init.token_timeout) :
    (processMarker cal tracked reachable srv sceneId now1 m).1.foundry_token_id =
      (resolve_foundry_token_id tracked reachable srv sceneId m.id
        (markerTypeOf cal m.id) now1).1 ∧
    resolve_foundry_token_id
        (update_tracked_tokens
          [(processMarker cal tracked reachable srv sceneId now1 m).1]
          tu tracker_init.token_timeout tracked)
        reachable (processMarker cal tracked reachable srv sceneId now1 m).2
        sceneId m.id (markerTypeOf cal m.id) now2 =
      ((resolve_foundry_token_id tracked reachable srv sceneId m.id
          (markerTypeOf cal m.id) now1).1,
       (processMarker cal tracked reachable srv sceneId now1 m).2, 0) ∧
    (resolve_foundry_token_id tracked reachable srv sceneId m.id
      (markerTypeOf cal m.id) now1).2.2 ≤ 1 ∧
    (reachable = true → tracked m.id = none →
      (List.lookup sceneId srv.scenes).isSome = true →
      (resolve_foundry_token_id tracked reachable srv sceneId m.id
        (markerTypeOf cal m.id) now1).1.isSome = true) := by
  have hid : (processMarker cal tracked reachable srv sceneId now1 m).1.id = m.id := by
    rw [processMarker_eq]
  have hls : (processMarker cal tracked reachable srv sceneId now1 m).1.last_seen
      = now1 := by
    rw [processMarker_eq]
  have hft : (processMarker cal tracked reachable srv sceneId now1 m).1.foundry_token_id
      = (resolve_foundry_token_id tracked reachable srv sceneId m.id
          (markerTypeOf cal m.id) now1).1 := by
    rw [processMarker_eq]
  refine ⟨hft, ?_, resolve_creates_le_one _ _ _ _ _ _ _, ?_⟩
  · have hl : lastWrite [(processMarker cal tracked reachable srv sceneId now1 m).1]
        m.id = some (processMarker cal tracked reachable srv sceneId now1 m).1 := by
      simp [lastWrite, hid]
    have htr : update_tracked_tokens
        [(processMarker cal tracked reachable srv sceneId now1 m).1]
        tu tracker_init.token_timeout tracked m.id =
        some (processMarker cal tracked reachable srv sceneId now1 m).1 := by
      rw [update_tracked_tokens_apply, mergeDetections_lastWrite _ _ _ _ hl]
      dsimp only
      rw [hls]
      exact if_neg (not_lt.mpr hkeep)
    rw [resolve_eq_of_tracked _ _ _ _ _ _ _ _ htr, hft]
  · intro hr htr0 hsc
    rw [resolve_eq_of_untracked _ _ _ _ _ _ _ htr0, hr]
    exact create_or_find_token_isSome srv sceneId m.id (markerTypeOf cal m.id)
      now1 hsc

/-- Witness for C2: a second sighting of marker 15 against the mock
server reads the resolved ID from the ledger cache with zero create
calls and an untouched remote state. -/
theorem create_or_find_token_idempotent_witness :
    resolve_foundry_token_id
        (update_tracked_tokens
          [(processMarker {} emptyTokenMap true srvEx "scene1" 1 mkEx).1]
          2 tracker_init.token_timeout emptyTokenMap)
        true (processMarker {} emptyTokenMap true srvEx "scene1" 1 mkEx).2
        "scene1" mkEx.id (markerTypeOf {} mkEx.id) 3 =
      ((resolve_foundry_token_id emptyTokenMap true srvEx "scene1" mkEx.id
          (markerTypeOf {} mkEx.id) 1).1,
       (processMarker {} emptyTokenMap true srvEx "scene1" 1 mkEx).2, 0) :=
  (create_or_find_token_idempotent {} emptyTokenMap true srvEx "scene1" 1 2 3
    mkEx (by norm_num : (2 : ℚ) - 1 ≤ 3)).2.1

/-- Counterexample for C5: after a first sighting of marker 15 during
which the remote was unreachable (so its ledger entry holds
`foundry_token_id = none`), the next sighting — with the remote now
reachable — returns the cached `none`, performs zero create calls and
leaves the remote state byte-for-byte untouched (not even a GET):
resolution is not retried while the ledger entry persists, contrary to
the claim. -/
theorem failed_resolution_not_retried_while_tracked :
    tokFailed.foundry_token_id = none ∧
    failedLedger 15 = some tokFailed ∧
    resolve_foundry_token_id failedLedger true srvEx "scene1" 15 "player" 2 =
      (none, srvEx, 0) := by
  exact ⟨rfl, rfl, rfl⟩

/-- C5 amended: a marker whose remote resolution failed remains
trackable locally with a null remote ID; while its ledger entry
persists, every sighting reuses the cached value without touching the
remote, and the find-or-create resolution runs again exactly when the
marker has no ledger entry — that is, on the first sighting after
eviction. -/
theorem resolution_retried_only_after_eviction (tracked : TokenMap)
    (reachable : Bool) (srv : ServerState) (sceneId : String)
    (markerId : ℕ) (markerType : String) (now : ℚ) (t : ArucoToken) :
    (tracked markerId = some t →
      resolve_foundry_token_id tracked reachable srv sceneId markerId
        markerType now = (t.foundry_token_id, srv, 0)) ∧
    (tracked markerId = none →
      resolve_foundry_token_id tracked reachable srv sceneId markerId
        markerType now =
        create_or_find_token reachable srv sceneId markerId markerType now) ∧
    (∀ tok : ArucoToken, tok.id = markerId →
      mergeDetections [tok] tracked markerId = some tok) := by
  refine ⟨?_, ?_, ?_⟩
  · intro h
    exact resolve_eq_of_tracked _ _ _ _ _ _ _ _ h
  · intro h
    exact resolve_eq_of_untracked _ _ _ _ _ _ _ h
  · intro tok hid
    simp [mergeDetections, hid]

/-- Witness for C5 amended: with no ledger entry for marker 15, the
resolution goes to `create_or_find_token`. -/
theorem resolution_retried_only_after_eviction_witness :
    resolve_foundry_token_id emptyTokenMap true srvEx "scene1" 15 "player" 2 =
      create_or_find_token true srvEx "scene1" 15 "player" 2 :=
  (resolution_retried_only_after_eviction emptyTokenMap true srvEx "scene1"
    15 "player" 2 tokFailed).2.1 rfl

/-- C10: a PATCH whose body holds only `x` and `y`, applied to an
existing token of the mock server, changes exactly that token's `x`,
`y` and `updated_at`; its name, image, size, flags and creation time
are unchanged, every other token and every scene's metadata are
unchanged, and the response carries the updated token. -/
theorem patch_token_updates_only_position (st : ServerState) (sid : String)
    (sc : MockScene) (tid : String) (t : MockToken) (X Y : ℤ) (now : ℚ)
    (hnd : (st.scenes.map Prod.fst).Nodup)
    (hfind : findTokenScene tid st.scenes = some (sid, sc))
    (htok : List.lookup tid sc.tokens = some t) :
    (handle_update_token st tid { x := some X, y := some Y } now).1 =
      some { t with x := X, y := Y, updated_at := now } ∧
    tokenAt (handle_update_token st tid { x := some X, y := some Y } now).2
        sid tid = some { t with x := X, y := Y, updated_at := now } ∧
    (∀ sid2 tid2, tid2 ≠ tid →
      tokenAt (handle_update_token st tid { x := some X, y := some Y } now).2
          sid2 tid2 = tokenAt st sid2 tid2) ∧
    (∀ sid2, sid2 ≠ sid →
      tokenAt (handle_update_token st tid { x := some X, y := some Y } now).2
          sid2 tid = tokenAt st sid2 tid) ∧
    (∀ sid2,
      (sceneOf (handle_update_token st tid { x := some X, y := some Y } now).2
          sid2).map sceneMeta = (sceneOf st sid2).map sceneMeta) := by
  have hupd : MockToken.update t { x := some X, y := some Y } now =
      { t with x := X, y := Y, updated_at := now } := rfl
  have hres : handle_update_token st tid { x := some X, y := some Y } now =
      (some { t with x := X, y := Y, updated_at := now },
       add_to_history
         { st with
           api_requests := st.api_requests + 1
           scenes := updateScenes tid { t with x := X, y := Y, updated_at := now }
             st.scenes
           tokens_updated := st.tokens_updated + 1 }
         { timestamp := now, action := "updated", token_id := tid,
           data := .updated { x := some X, y := some Y } }) := by
    unfold handle_update_token
    rw [hfind]
    dsimp only
    rw [htok]
    dsimp only
    rw [hupd]
  have hscenes : (handle_update_token st tid { x := some X, y := some Y } now).2.scenes
      = updateScenes tid { t with x := X, y := Y, updated_at := now } st.scenes := by
    rw [hres]
    rfl
  refine ⟨by rw [hres], ?_, ?_, ?_, ?_⟩
  · rw [tokenAt, sceneOf, hscenes,
      updateScenes_lookup_found tid _ st.scenes sid sc hnd hfind]
    dsimp only [Option.bind]
    exact lookup_assocSet_self tid _ sc.tokens
  · intro sid2 tid2 hne
    rw [tokenAt, sceneOf, hscenes, tokenAt, sceneOf]
    by_cases h2 : sid2 = sid
    · subst h2
      rw [updateScenes_lookup_found tid _ st.scenes sid2 sc hnd hfind,
        findTokenScene_lookup tid st.scenes sid2 sc hnd hfind]
      dsimp only [Option.bind]
      exact lookup_assocSet_ne tid tid2 _ sc.tokens hne
    · rw [updateScenes_lookup_ne tid _ st.scenes sid sc hfind sid2 h2]
  · intro sid2 hne
    rw [tokenAt, sceneOf, hscenes, tokenAt, sceneOf,
      updateScenes_lookup_ne tid _ st.scenes sid sc hfind sid2 hne]
  · intro sid2
    rw [sceneOf, hscenes, sceneOf]
    exact updateScenes_meta tid _ st.scenes sid2

/-- Witness for C10: patching token A of the two-token mock server with
only a position moves it and leaves token B where it was. -/
theorem patch_token_updates_only_position_witness :
    (handle_update_token srvTwoTokens "tokA" { x := some 50, y := some 60 } 7).1
      = some { tokMockA with x := 50, y := 60, updated_at := 7 } ∧
    tokenAt (handle_update_token srvTwoTokens "tokA"
        { x := some 50, y := some 60 } 7).2 "scene1" "tokB" =
      tokenAt srvTwoTokens "scene1" "tokB" := by
  have h := patch_token_updates_only_position srvTwoTokens "scene1"
    { id := "scene1", tokens := [("tokA", tokMockA), ("tokB", tokMockB)] }
    "tokA" tokMockA 50 60 7 (by decide) rfl rfl
  exact ⟨h.1, h.2.2.1 "scene1" "tokB" (by decide)⟩

end ArucoTracker
